import Mathlib

/-!
Verification of the BS-detector claim-verification pipeline
(`src/bs_detector`), a LangGraph workflow that judges natural-language
claims with an LLM oracle, optional web search, multi-expert routing and
human review.

The Python modules are shallowly embedded: pure node functions become Lean
functions over explicit state records, the LLM and search backends are
abstracted as oracle parameters (spec section 4.1 treats them as opaque
capabilities), and Python runtime behaviour (truthiness, `str.split`,
`str.strip`, `int(...)`, `or`-defaults, f-string rendering of `None`) is
modelled by the `py...` helpers below.  Machine floats in the uncertainty
computation are modelled by exact rationals: every constant in the source
(0.4, 0.3, 0.2, 0.1, 0.6) is an exact decimal and the verified comparisons
have slack with respect to the float rounding of those literals.
-/

set_option maxRecDepth 100000

/-! ## Python runtime helpers -/

/-- Characters stripped by Python `str.strip()` (ASCII fragment of Python
whitespace; the claims only involve ASCII text). -/
def isPySpace (c : Char) : Bool :=
  c == ' ' || c == '\t' || c == '\n' || c == '\r' || c == '\x0B' || c == '\x0C'

/-- Python `s.strip()`. -/
def pyStrip (s : String) : String :=
  ⟨((s.data.dropWhile isPySpace).reverse.dropWhile isPySpace).reverse⟩

/-- Python `len(s)` (counts code points, as `str` slicing does). -/
def pyLen (s : String) : Nat := s.data.length

/-- Python `s[:n]` for a string. -/
def pyTake (s : String) (n : Nat) : String := ⟨s.data.take n⟩

/-- Does the first list start with the second one? -/
def listStartsWith : List Char → List Char → Bool
  | _, [] => true
  | [], _ :: _ => false
  | c :: cs, p :: ps => c == p && listStartsWith cs ps

/-- Worker for Python substring membership `pat in s`. -/
def pyContainsList (pat : List Char) : List Char → Bool
  | [] => pat.isEmpty
  | c :: cs => listStartsWith (c :: cs) pat || pyContainsList pat cs

/-- Python `pat in s` on strings. -/
def pyContains (s pat : String) : Bool := pyContainsList pat.data s.data

/-- Worker for Python `s.split(sep)` with a non-empty separator.  The fuel
argument only bounds recursion; `pyLen s + 1` is always enough because each
step consumes at least one character. -/
def pySplitAux (sep : List Char) : Nat → List Char → List Char → List (List Char)
  | 0, l, acc => [acc.reverse ++ l]
  | _ + 1, [], acc => [acc.reverse]
  | fuel + 1, c :: cs, acc =>
    if listStartsWith (c :: cs) sep then
      acc.reverse :: pySplitAux sep fuel ((c :: cs).drop sep.length) []
    else
      pySplitAux sep fuel cs (c :: acc)

/-- Python `s.split(sep)` (all occurrences, left to right, non-overlapping). -/
def pySplit (s sep : String) : List String :=
  (pySplitAux sep.data (s.data.length + 1) s.data []).map (fun l => ⟨l⟩)

/-- Python `s.lower()` (ASCII fragment). -/
def pyLower (s : String) : String := ⟨s.data.map Char.toLower⟩

/-- Python truthiness of an `Optional[str]`: `None` and `""` are falsy. -/
def pyTruthyOptStr : Option String → Bool
  | none => false
  | some s => !s.isEmpty

/-- Python truthiness of an `Optional[int]`: `None` and `0` are falsy. -/
def pyTruthyOptInt : Option Int → Bool
  | none => false
  | some n => n != 0

/-- Python truthiness of an `Optional[list]`: `None` and `[]` are falsy. -/
def pyTruthyOptList {α : Type} : Option (List α) → Bool
  | none => false
  | some l => !l.isEmpty

/-- Python `x or d` for `x : Optional[str]` with a string default. -/
def pyOrOptStrD (o : Option String) (d : String) : String :=
  match o with
  | some s => if s.isEmpty then d else s
  | none => d

/-- Python `x or d` for `x : Optional[int]` with an int default. -/
def pyOrOptIntD (o : Option Int) (d : Int) : Int :=
  match o with
  | some n => if n = 0 then d else n
  | none => d

/-- Python `a or b` for two `Optional[str]` values. -/
def pyOrOptStr (a b : Option String) : Option String :=
  if pyTruthyOptStr a then a else b

/-- Python `a or b` for two `Optional[int]` values. -/
def pyOrOptInt (a b : Option Int) : Option Int :=
  if pyTruthyOptInt a then a else b

/-- Python f-string rendering of an `Optional[str]` value (`None` prints as
the four-letter word). -/
def pyReprOptStr : Option String → String
  | none => "None"
  | some s => s

/-- Grammar of the digit tail of a Python `int(...)` literal: digits with
single underscores allowed between digits. -/
def pyIntDigits : List Char → Bool
  | [] => true
  | '_' :: rest =>
    match rest with
    | [] => false
    | d :: rest2 => d.isDigit && pyIntDigits rest2
  | c :: cs => c.isDigit && pyIntDigits cs

/-- A non-empty unsigned Python int literal body. -/
def pyIntLit : List Char → Bool
  | [] => false
  | c :: cs => c.isDigit && pyIntDigits cs

/-- Numeric value of a digit-and-underscore literal body. -/
def digitsVal (l : List Char) : Int :=
  l.foldl (fun acc c => if c == '_' then acc else acc * 10 + Int.ofNat (c.toNat - 48)) 0

/-- Python `int(s)`: strip whitespace, optional sign, base-10 digits with
underscore separators; `none` models the `ValueError` raised otherwise
(ASCII fragment). -/
def pyParseInt (s : String) : Option Int :=
  match (pyStrip s).data with
  | '+' :: rest => if pyIntLit rest then some (digitsVal rest) else none
  | '-' :: rest => if pyIntLit rest then some (-(digitsVal rest)) else none
  | l => if pyIntLit l then some (digitsVal l) else none

/-! ## Module m1_baseline: `check_claim`

The LLM is the oracle of spec section 4.1: invoking it either yields a
structured `BSDetectorOutput` or fails (network, timeout, parse error).
`check_claim` is embedded together with the list of prompts it actually
sent to the oracle, so that call counts and call arguments can be stated. -/

/-- Structured output schema of the baseline detector (m1_baseline lines
20-32).  Pydantic bounds 0-100 on confidence are a schema the oracle is
constrained to; the embedding carries the raw integer. -/
structure BSDetectorOutput where
  verdict : String
  confidence : Int
  reasoning : String
deriving DecidableEq, Repr

/-- Outcome of one oracle (LLM) invocation: a structured reply, or a raised
exception carrying its message. -/
inductive OracleReply where
  | ok (out : BSDetectorOutput)
  | failure (message : String)
deriving DecidableEq, Repr

/-- The oracle behind `check_claim`: user prompt to reply. -/
abbrev Oracle := String → OracleReply

/-- The dict returned by `check_claim` (keys verdict, confidence, reasoning
and the optional error key). -/
structure CheckResult where
  verdict : String
  confidence : Int
  reasoning : String
  error : Option String := none
deriving DecidableEq, Repr

/-- The user prompt built by `check_claim` (m1_baseline line 69). -/
def bsPromptFor (claim : String) : String := "Analyze this aviation claim: " ++ claim

/-- The input validation of `check_claim` (m1_baseline line 48):
`not claim or not claim.strip()`. -/
def isBlankClaim (claim : String) : Bool := claim.isEmpty || (pyStrip claim).isEmpty

/-- Embedding of `check_claim` (m1_baseline lines 35-101).  The second
component records every user prompt sent to the oracle, in order.  The
surrounding `try`/`except` returns the ERROR dict of lines 96-101 exactly
when the oracle invocation raises; all other statements are total. -/
def check_claim (oracle : Oracle) (claim : String) : CheckResult × List String :=
  if isBlankClaim claim then
    ({ verdict := "ERROR", confidence := 0, reasoning := "Empty claim provided",
       error := some "Invalid input" }, [])
  else
    let claim1 := if pyLen claim > 500 then pyTake claim 500 ++ "..." else claim
    let prompt := bsPromptFor claim1
    match oracle prompt with
    | .failure e =>
      ({ verdict := "ERROR", confidence := 0, reasoning := "Failed to analyze claim",
         error := some e }, [prompt])
    | .ok out =>
      if out.verdict ≠ "BS" ∧ out.verdict ≠ "LEGITIMATE" then
        ({ verdict := "ERROR", confidence := out.confidence, reasoning := out.reasoning,
           error := some "Invalid verdict returned" }, [prompt])
      else
        ({ verdict := out.verdict, confidence := out.confidence, reasoning := out.reasoning,
           error := none }, [prompt])

/-- On every non-blank claim the oracle is consulted exactly once, with the
claim truncated to 500 characters plus an ellipsis when it is longer. -/
theorem check_claim_log (oracle : Oracle) (claim : String)
    (hb : isBlankClaim claim = false) :
    (check_claim oracle claim).2 =
      [bsPromptFor (if pyLen claim > 500 then pyTake claim 500 ++ "..." else claim)] := by
  unfold check_claim
  rw [hb]
  simp only [Bool.false_eq_true, if_false]
  cases oracle (bsPromptFor (if pyLen claim > 500 then pyTake claim 500 ++ "..." else claim)) with
  | ok out =>
    by_cases h : out.verdict ≠ "BS" ∧ out.verdict ≠ "LEGITIMATE" <;> simp [h]
  | failure e => rfl

/-- C5: a claim that is empty or consists only of whitespace makes
`check_claim` return verdict ERROR with confidence 0, reasoning
"Empty claim provided" and the error field populated, and the oracle is
never invoked (empty call log). -/
theorem C5_blank_claim_errors_without_oracle_call (oracle : Oracle) (claim : String)
    (h : isBlankClaim claim = true) :
    check_claim oracle claim =
      ({ verdict := "ERROR", confidence := 0, reasoning := "Empty claim provided",
         error := some "Invalid input" }, []) := by
  simp [check_claim, h]

theorem C5_blank_claim_errors_without_oracle_call_witness :
    check_claim (fun _ => .failure "network down") "   " =
      ({ verdict := "ERROR", confidence := 0, reasoning := "Empty claim provided",
         error := some "Invalid input" }, []) :=
  C5_blank_claim_errors_without_oracle_call (fun _ => .failure "network down") "   " (by decide)

/-- C8: on a claim longer than 500 characters, `check_claim` invokes the
oracle exactly once, with the prompt built from the first 500 characters
followed by "..."; a claim of at most 500 characters is passed through to
the prompt unchanged.  (A blank claim never reaches the oracle at all,
see C5, hence the non-blank hypotheses.) -/
theorem C8_claim_truncated_to_500_before_prompt (oracle : Oracle) (claim : String) :
    (pyLen claim > 500 → isBlankClaim claim = false →
      (check_claim oracle claim).2 = [bsPromptFor (pyTake claim 500 ++ "...")]) ∧
    (pyLen claim ≤ 500 → isBlankClaim claim = false →
      (check_claim oracle claim).2 = [bsPromptFor claim]) := by
  constructor
  · intro hlen hb
    rw [check_claim_log oracle claim hb, if_pos hlen]
  · intro hlen hb
    rw [check_claim_log oracle claim hb, if_neg (by omega)]

/-- A 501-character claim used as the concrete long input. -/
def longClaimA : String := ⟨List.replicate 501 'a'⟩

theorem C8_claim_truncated_to_500_before_prompt_witness :
    (check_claim (fun _ => .failure "x") longClaimA).2 =
      [bsPromptFor (pyTake longClaimA 500 ++ "...")] ∧
    (check_claim (fun _ => .failure "x") "The Boeing 747 has four engines").2 =
      [bsPromptFor "The Boeing 747 has four engines"] :=
  ⟨(C8_claim_truncated_to_500_before_prompt (fun _ => .failure "x") longClaimA).1
      (by decide) (by decide),
   (C8_claim_truncated_to_500_before_prompt (fun _ => .failure "x")
      "The Boeing 747 has four engines").2 (by decide) (by decide)⟩

/-! ## Module m2_langgraph: the baseline retry graph

State, nodes and routing of `m2_langgraph.py`.  Every node returns a
partial dict merged last-write-wins into the state by the execution
engine; node embeddings below fold the returned update into the state.
`detect_bs_node` (lines 49-75) increments `retry_count` only in its
`except` branch, which fires only when an exception escapes
`check_claim`; `check_claim` itself catches every oracle failure
(m1_baseline lines 94-101) and returns an ERROR dict instead of raising,
so the embedding of the non-raising path below is the behaviour for every
oracle outcome. -/

structure M2State where
  claim : String
  retry_count : Int := 0
  max_retries : Int := 3
  verdict : Option String := none
  confidence : Option Int := none
  reasoning : Option String := none
  error : Option String := none
  result : Option CheckResult := none
deriving DecidableEq, Repr

/-- Embedding of `detect_bs_node` (m2_langgraph lines 49-75), non-raising
path: wraps `check_claim` and merges the returned dict; `retry_count` is
not touched. -/
def detect_bs_node (oracle : Oracle) (s : M2State) : M2State :=
  let r := (check_claim oracle s.claim).1
  { s with verdict := some r.verdict, confidence := some r.confidence,
           reasoning := some r.reasoning, error := r.error, result := some r }

/-- Embedding of `retry_node` (lines 78-91): sleeps (outside the model) and
returns the empty update. -/
def retry_node_m2 (s : M2State) : M2State := s

/-- Partial update returned by `format_output_node` (m2_langgraph lines
94-113): `none` models the empty dict, `some r` the update setting the
`result` key.  The stored result dicts are never empty, so Python
truthiness of `state.result` is `isSome`. -/
def format_output_node_m2 (s : M2State) : Option CheckResult :=
  if s.result.isSome then none
  else
    some { verdict := pyOrOptStrD s.verdict "ERROR",
           confidence := pyOrOptIntD s.confidence 0,
           reasoning := pyOrOptStrD s.reasoning "No analysis available",
           error := if pyTruthyOptStr s.error then s.error else none }

/-- Merge of the formatter update into the state. -/
def applyFormatM2 (s : M2State) (u : Option CheckResult) : M2State :=
  match u with
  | none => s
  | some r => { s with result := some r }

/-- Embedding of `route_after_detection` (m2_langgraph lines 117-131). -/
def route_after_detection (s : M2State) : String :=
  if pyTruthyOptStr s.verdict && s.verdict != some "ERROR" then "success"
  else if s.retry_count < s.max_retries then "retry"
  else "error"

inductive M2Node where
  | detect
  | retry
  | format
  | terminal
deriving DecidableEq, Repr

/-- One engine step of the compiled m2 graph (`create_bs_detector_graph`,
lines 135-169): detect, conditional edge by `route_after_detection`
(success and error both go to format_output), retry loops back to detect,
format_output goes to END. -/
def m2step (oracle : Oracle) : M2Node × M2State → M2Node × M2State
  | (.detect, s) =>
    let s1 := detect_bs_node oracle s
    match route_after_detection s1 with
    | "success" => (.format, s1)
    | "retry" => (.retry, s1)
    | _ => (.format, s1)
  | (.retry, s) => (.detect, retry_node_m2 s)
  | (.format, s) => (.terminal, applyFormatM2 s (format_output_node_m2 s))
  | (.terminal, s) => (.terminal, s)

/-- Fallback dict of `check_claim_with_graph` (lines 194-199) when the
final state has no truthy result. -/
def m2FallbackResult : CheckResult :=
  { verdict := "ERROR", confidence := 0, reasoning := "Graph execution failed",
    error := some "Unknown error" }

/-- Fuel-bounded execution of the m2 graph from a node/state pair; `none`
means the run did not reach the terminal marker within the given number of
engine steps (so `∀ fuel, ... = none` is non-termination). -/
def m2run (oracle : Oracle) : Nat → M2Node × M2State → Option CheckResult
  | 0, _ => none
  | n + 1, p =>
    if p.1 = M2Node.terminal then some (p.2.result.getD m2FallbackResult)
    else m2run oracle n (m2step oracle p)

/-- An oracle that fails on every detection attempt: each LLM invocation
raises (network error), which `check_claim` converts into its ERROR dict. -/
def m2AlwaysFailingOracle : Oracle := fun _ => .failure "API Error"

def c1Claim : String := "The Boeing 747 has four engines"

/-- Initial state of `check_claim_with_graph` (lines 184-188) with the
default `max_retries = 3`. -/
def c1S0 : M2State := { claim := c1Claim, retry_count := 0, max_retries := 3 }

/-- The state after one detection attempt against the failing oracle. -/
def c1S1 : M2State := detect_bs_node m2AlwaysFailingOracle c1S0

/-- Iterated engine steps of the run under the always-failing oracle. -/
def c1Iter (n : Nat) : M2Node × M2State :=
  (m2step m2AlwaysFailingOracle)^[n] (M2Node.detect, c1S0)

/-- The run under the always-failing oracle only ever visits detect and
retry, with `retry_count` stuck at 0. -/
theorem c1_traj (n : Nat) :
    c1Iter n = (M2Node.detect, c1S0) ∨ c1Iter n = (M2Node.retry, c1S1) ∨
      c1Iter n = (M2Node.detect, c1S1) := by
  induction n with
  | zero => exact Or.inl rfl
  | succ n ih =>
    have hstep : c1Iter (n + 1) = m2step m2AlwaysFailingOracle (c1Iter n) :=
      Function.iterate_succ_apply' (m2step m2AlwaysFailingOracle) n (M2Node.detect, c1S0)
    rcases ih with h | h | h <;> rw [hstep, h]
    · exact Or.inr (Or.inl (by decide))
    · exact Or.inr (Or.inr (by decide))
    · exact Or.inr (Or.inl (by decide))

/-- No amount of fuel makes the run under the always-failing oracle reach
the terminal node. -/
theorem c1_run_none :
    ∀ (n : Nat) (p : M2Node × M2State),
      (p = (M2Node.detect, c1S0) ∨ p = (M2Node.retry, c1S1) ∨ p = (M2Node.detect, c1S1)) →
      m2run m2AlwaysFailingOracle n p = none := by
  intro n
  induction n with
  | zero => intro p _; rfl
  | succ n ih =>
    intro p hp
    rcases hp with h | h | h <;> subst h <;>
      simp only [m2run, reduceCtorEq, if_false] <;> apply ih
    · have h1 : m2step m2AlwaysFailingOracle (M2Node.detect, c1S0) = (M2Node.retry, c1S1) := by
        decide
      rw [h1]; exact Or.inr (Or.inl rfl)
    · have h1 : m2step m2AlwaysFailingOracle (M2Node.retry, c1S1) = (M2Node.detect, c1S1) := by
        decide
      rw [h1]; exact Or.inr (Or.inr rfl)
    · have h1 : m2step m2AlwaysFailingOracle (M2Node.detect, c1S1) = (M2Node.retry, c1S1) := by
        decide
      rw [h1]; exact Or.inr (Or.inl rfl)

/-- C1: the claim fails on the code.  With an oracle that fails on every
detection attempt (every LLM invocation raises, so `check_claim` returns
its ERROR dict and `detect_bs_node` never reaches the `except` branch that
increments `retry_count`), the baseline retry graph started on the demo
claim with `max_retries = 3` never terminates: for every fuel bound the
run has not reached the terminal node, `route_after_detection` never
returns "error", and `retry_count` stays 0 forever, so the run cycles
between detect and retry instead of ending with an ERROR verdict after
`max_retries` retries. -/
theorem C1_always_failing_oracle_loops_forever :
    ∀ n : Nat,
      m2run m2AlwaysFailingOracle n (M2Node.detect, c1S0) = none ∧
      route_after_detection (c1Iter n).2 ≠ "error" ∧
      (c1Iter n).2.retry_count = 0 := by
  intro n
  refine ⟨c1_run_none n _ (Or.inl rfl), ?_, ?_⟩
  · rcases c1_traj n with h | h | h <;> rw [h] <;> decide
  · rcases c1_traj n with h | h | h <;> rw [h] <;> decide

/-! ## Module m5_routing: `_parse_expert_response`

Deterministic parser applied to free-text expert replies (m5_routing lines
235-262).  Field labels are located with Python substring tests on the
untouched content, so only the exact upper-case labels match. -/

/-- Dict returned by `_parse_expert_response`. -/
structure ExpertParsedUpdate where
  verdict : String
  confidence : Int
  reasoning : String
  analyzing_agent : String
deriving DecidableEq, Repr

/-- Python `content.split(label)[1]` guarded by `label in content`
(the segment between the first and second occurrence of the label). -/
def segmentAfter (content label : String) : String := (pySplit content label).getD 1 ""

/-- Python `s.split("\n")[0]`. -/
def firstLine (s : String) : String := (pySplit s "\n").getD 0 ""

/-- Embedding of `_parse_expert_response` (m5_routing lines 235-262). -/
def _parse_expert_response (content expert_name : String) : ExpertParsedUpdate :=
  let verdict :=
    if pyContains content "VERDICT:" then
      let verdict_line := pyStrip (firstLine (segmentAfter content "VERDICT:"))
      if pyContains verdict_line "LEGITIMATE" then "LEGITIMATE"
      else if pyContains verdict_line "BS" then "BS"
      else "UNCERTAIN"
    else "UNCERTAIN"
  let confidence :=
    if pyContains content "CONFIDENCE:" then
      (pyParseInt (pyStrip (firstLine (segmentAfter content "CONFIDENCE:")))).getD 50
    else 50
  let reasoning :=
    if pyContains content "REASONING:" then pyStrip (segmentAfter content "REASONING:")
    else content
  { verdict := verdict, confidence := confidence, reasoning := reasoning,
    analyzing_agent := expert_name }

def c4LowerContent : String := "verdict: BS\nconfidence: 90\nreasoning: matches the record"

def c4UpperContent : String := "VERDICT: BS\nCONFIDENCE: 90\nREASONING: matches the record"

/-- C4 counterexample: the parser does not locate the labeled fields
case-insensitively.  On a response whose labels are lower-case the parser
falls back to the defaults (UNCERTAIN, 50), while the identical response
with upper-case labels parses to BS with confidence 90. -/
theorem C4_counterexample_labels_are_case_sensitive :
    (_parse_expert_response c4LowerContent "General Expert").verdict = "UNCERTAIN" ∧
    (_parse_expert_response c4LowerContent "General Expert").confidence = 50 ∧
    (_parse_expert_response c4UpperContent "General Expert").verdict = "BS" ∧
    (_parse_expert_response c4UpperContent "General Expert").confidence = 90 := by
  decide

/-- C4 amended: the parser locates the labeled fields `VERDICT:`,
`CONFIDENCE:` and `REASONING:` case-SENSITIVELY (exact upper-case label
text); whenever a field is missing or its value malformed it substitutes
the documented defaults (verdict UNCERTAIN, confidence 50, reasoning the
whole content) and never raises: the verdict is always one of UNCERTAIN,
LEGITIMATE, BS, and the function is total. -/
theorem C4_amended_parser_is_case_sensitive_with_defaults (content expert_name : String) :
    (pyContains content "VERDICT:" = false →
      (_parse_expert_response content expert_name).verdict = "UNCERTAIN") ∧
    (pyContains content "CONFIDENCE:" = false →
      (_parse_expert_response content expert_name).confidence = 50) ∧
    (pyContains content "CONFIDENCE:" = true →
      pyParseInt (pyStrip (firstLine (segmentAfter content "CONFIDENCE:"))) = none →
      (_parse_expert_response content expert_name).confidence = 50) ∧
    (pyContains content "REASONING:" = false →
      (_parse_expert_response content expert_name).reasoning = content) ∧
    ((_parse_expert_response content expert_name).verdict = "UNCERTAIN" ∨
      (_parse_expert_response content expert_name).verdict = "LEGITIMATE" ∨
      (_parse_expert_response content expert_name).verdict = "BS") ∧
    (_parse_expert_response content expert_name).analyzing_agent = expert_name := by
  refine ⟨?_, ?_, ?_, ?_, ?_, rfl⟩
  · intro h; simp [_parse_expert_response, h]
  · intro h; simp [_parse_expert_response, h]
  · intro h hmal; simp [_parse_expert_response, h, hmal]
  · intro h; simp [_parse_expert_response, h]
  · by_cases h : pyContains content "VERDICT:" = true
    · simp only [_parse_expert_response, h, if_true]
      by_cases h2 :
          pyContains (pyStrip (firstLine (segmentAfter content "VERDICT:"))) "LEGITIMATE" = true
      · simp [h2]
      · by_cases h3 :
            pyContains (pyStrip (firstLine (segmentAfter content "VERDICT:"))) "BS" = true <;>
          simp [h2, h3]
    · simp [_parse_expert_response, h]

theorem C4_amended_parser_is_case_sensitive_with_defaults_witness :
    (_parse_expert_response "no labels at all" "Historical Expert").verdict = "UNCERTAIN" ∧
    (_parse_expert_response "no labels at all" "Historical Expert").confidence = 50 ∧
    (_parse_expert_response "CONFIDENCE: very high" "Historical Expert").confidence = 50 ∧
    (_parse_expert_response "no labels at all" "Historical Expert").reasoning =
      "no labels at all" ∧
    ((_parse_expert_response "no labels at all" "Historical Expert").verdict = "UNCERTAIN" ∨
      (_parse_expert_response "no labels at all" "Historical Expert").verdict = "LEGITIMATE" ∨
      (_parse_expert_response "no labels at all" "Historical Expert").verdict = "BS") ∧
    (_parse_expert_response "no labels at all" "Historical Expert").analyzing_agent =
      "Historical Expert" :=
  ⟨(C4_amended_parser_is_case_sensitive_with_defaults "no labels at all" "Historical Expert").1
      (by decide),
   (C4_amended_parser_is_case_sensitive_with_defaults "no labels at all"
      "Historical Expert").2.1 (by decide),
   (C4_amended_parser_is_case_sensitive_with_defaults "CONFIDENCE: very high"
      "Historical Expert").2.2.1 (by decide) (by decide),
   (C4_amended_parser_is_case_sensitive_with_defaults "no labels at all"
      "Historical Expert").2.2.2.1 (by decide),
   (C4_amended_parser_is_case_sensitive_with_defaults "no labels at all"
      "Historical Expert").2.2.2.2.1,
   (C4_amended_parser_is_case_sensitive_with_defaults "no labels at all"
      "Historical Expert").2.2.2.2.2⟩

/-! ## Module m4_tools: search-enhanced detector state, verdict revision
and output formatting -/

/-- Embedding of `BSDetectorState` of m4_tools (lines 16-47).  Search
result dicts are modelled by their rendered text, which is all the nodes
under verification read from them. -/
structure M4State where
  claim : String
  initial_verdict : Option String := none
  initial_confidence : Option Int := none
  initial_reasoning : Option String := none
  needs_search : Bool := false
  confidence_threshold : Int := 70
  search_queries : List String := []
  search_results : List String := []
  extracted_facts : List String := []
  evidence_summary : Option String := none
  evidence_supports_claim : Option Bool := none
  final_verdict : Option String := none
  final_confidence : Option Int := none
  final_reasoning : Option String := none
  sources_used : List String := []
  used_search : Bool := false
  error : Option String := none
deriving DecidableEq, Repr

/-- Dict returned by `revise_verdict_node`: the three final_* keys. -/
structure RevisedUpdate where
  final_verdict : Option String
  final_confidence : Int
  final_reasoning : String
deriving DecidableEq, Repr

/-- Embedding of `revise_verdict_node` (m4_tools lines 166-196).  The
Python `if`/`elif` chain on `evidence_supports_claim == False/True` is
rendered as a match on the tri-state value; `none` models the `TypeError`
raised by `state.initial_confidence - 10` (resp. `+ boost`) when
`initial_confidence` is `None`. -/
def revise_verdict_node (s : M4State) : Option RevisedUpdate :=
  match s.evidence_supports_claim with
  | none =>
    s.initial_confidence.map (fun c =>
      { final_verdict := s.initial_verdict,
        final_confidence := max (c - 10) 40,
        final_reasoning := pyReprOptStr s.initial_reasoning ++
          "\n\nNote: Web search was attempted but didn\x27t provide clear evidence." })
  | some false =>
    if s.initial_verdict = some "LEGITIMATE" then
      some { final_verdict := some "BS", final_confidence := 80,
             final_reasoning :=
               "Initially seemed legitimate, but evidence indicates otherwise.\n\n" ++
                 pyReprOptStr s.evidence_summary }
    else
      s.initial_confidence.map (fun c =>
        { final_verdict := s.initial_verdict,
          final_confidence := min (c + 0) 95,
          final_reasoning := pyReprOptStr s.initial_reasoning ++
            "\n\nEvidence analysis:\n" ++ pyReprOptStr s.evidence_summary })
  | some true =>
    if s.initial_verdict = some "BS" then
      some { final_verdict := some "LEGITIMATE", final_confidence := 80,
             final_reasoning :=
               "Initially seemed like BS, but evidence supports the claim.\n\n" ++
                 pyReprOptStr s.evidence_summary }
    else
      s.initial_confidence.map (fun c =>
        { final_verdict := s.initial_verdict,
          final_confidence := min (c + 15) 95,
          final_reasoning := pyReprOptStr s.initial_reasoning ++
            "\n\nEvidence analysis:\n" ++ pyReprOptStr s.evidence_summary })

/-- C2: the literal evidence-revision policy table.  LEGITIMATE at 65 with
refuting evidence flips to BS at 80; BS at 70 with supporting evidence
flips to LEGITIMATE at 80; with null evidence the initial verdict is kept
and the confidence becomes max(initial - 10, 40). -/
theorem C2_revision_policy_table (s : M4State) :
    (s.initial_verdict = some "LEGITIMATE" → s.initial_confidence = some 65 →
      s.evidence_supports_claim = some false →
      ∃ u, revise_verdict_node s = some u ∧
        u.final_verdict = some "BS" ∧ u.final_confidence = 80) ∧
    (s.initial_verdict = some "BS" → s.initial_confidence = some 70 →
      s.evidence_supports_claim = some true →
      ∃ u, revise_verdict_node s = some u ∧
        u.final_verdict = some "LEGITIMATE" ∧ u.final_confidence = 80) ∧
    (∀ c : Int, s.evidence_supports_claim = none → s.initial_confidence = some c →
      ∃ u, revise_verdict_node s = some u ∧
        u.final_verdict = s.initial_verdict ∧ u.final_confidence = max (c - 10) 40) := by
  refine ⟨?_, ?_, ?_⟩
  · intro hv hc he
    have h : revise_verdict_node s = some
        { final_verdict := some "BS", final_confidence := 80,
          final_reasoning :=
            "Initially seemed legitimate, but evidence indicates otherwise.\n\n" ++
              pyReprOptStr s.evidence_summary } := by
      simp [revise_verdict_node, hv, he]
    exact ⟨_, h, rfl, rfl⟩
  · intro hv hc he
    have h : revise_verdict_node s = some
        { final_verdict := some "LEGITIMATE", final_confidence := 80,
          final_reasoning :=
            "Initially seemed like BS, but evidence supports the claim.\n\n" ++
              pyReprOptStr s.evidence_summary } := by
      simp [revise_verdict_node, hv, he]
    exact ⟨_, h, rfl, rfl⟩
  · intro c he hc
    have h : revise_verdict_node s = some
        { final_verdict := s.initial_verdict, final_confidence := max (c - 10) 40,
          final_reasoning := pyReprOptStr s.initial_reasoning ++
            "\n\nNote: Web search was attempted but didn\x27t provide clear evidence." } := by
      simp [revise_verdict_node, he, hc]
    exact ⟨_, h, rfl, rfl⟩

theorem C2_revision_policy_table_witness :
    (∃ u, revise_verdict_node
        { claim := "c", initial_verdict := some "LEGITIMATE",
          initial_confidence := some 65, evidence_supports_claim := some false } = some u ∧
      u.final_verdict = some "BS" ∧ u.final_confidence = 80) ∧
    (∃ u, revise_verdict_node
        { claim := "c", initial_verdict := some "BS",
          initial_confidence := some 70, evidence_supports_claim := some true } = some u ∧
      u.final_verdict = some "LEGITIMATE" ∧ u.final_confidence = 80) ∧
    (∃ u, revise_verdict_node
        { claim := "c", initial_verdict := some "LEGITIMATE",
          initial_confidence := some 42, evidence_supports_claim := none } = some u ∧
      u.final_verdict = some "LEGITIMATE" ∧ u.final_confidence = max (42 - 10) 40) :=
  ⟨(C2_revision_policy_table _).1 rfl rfl rfl,
   (C2_revision_policy_table _).2.1 rfl rfl rfl,
   (C2_revision_policy_table
      { claim := "c", initial_verdict := some "LEGITIMATE",
        initial_confidence := some 42, evidence_supports_claim := none }).2.2 42 rfl rfl⟩

/-- C10: confirming evidence is asymmetric.  A BS verdict confirmed by
refuting evidence gets a boost of 0, final confidence min(initial, 95);
a LEGITIMATE verdict confirmed by supporting evidence gets +15 capped at
95. -/
theorem C10_confirming_evidence_boost_asymmetry (s : M4State) (c : Int)
    (hc : s.initial_confidence = some c) :
    (s.evidence_supports_claim = some false → s.initial_verdict = some "BS" →
      ∃ u, revise_verdict_node s = some u ∧
        u.final_verdict = some "BS" ∧ u.final_confidence = min c 95) ∧
    (s.evidence_supports_claim = some true → s.initial_verdict = some "LEGITIMATE" →
      ∃ u, revise_verdict_node s = some u ∧
        u.final_verdict = some "LEGITIMATE" ∧ u.final_confidence = min (c + 15) 95) := by
  constructor
  · intro he hv
    have h : revise_verdict_node s = some
        { final_verdict := s.initial_verdict, final_confidence := min (c + 0) 95,
          final_reasoning := pyReprOptStr s.initial_reasoning ++
            "\n\nEvidence analysis:\n" ++ pyReprOptStr s.evidence_summary } := by
      simp [revise_verdict_node, he, hv, hc]
    exact ⟨_, h, hv, by simp⟩
  · intro he hv
    have h : revise_verdict_node s = some
        { final_verdict := s.initial_verdict, final_confidence := min (c + 15) 95,
          final_reasoning := pyReprOptStr s.initial_reasoning ++
            "\n\nEvidence analysis:\n" ++ pyReprOptStr s.evidence_summary } := by
      simp [revise_verdict_node, he, hv, hc]
    exact ⟨_, h, hv, rfl⟩

theorem C10_confirming_evidence_boost_asymmetry_witness :
    (∃ u, revise_verdict_node
        { claim := "c", initial_verdict := some "BS",
          initial_confidence := some 97, evidence_supports_claim := some false } = some u ∧
      u.final_verdict = some "BS" ∧ u.final_confidence = min 97 95) ∧
    (∃ u, revise_verdict_node
        { claim := "c", initial_verdict := some "LEGITIMATE",
          initial_confidence := some 90, evidence_supports_claim := some true } = some u ∧
      u.final_verdict = some "LEGITIMATE" ∧ u.final_confidence = min (90 + 15) 95) :=
  ⟨(C10_confirming_evidence_boost_asymmetry
      { claim := "c", initial_verdict := some "BS",
        initial_confidence := some 97, evidence_supports_claim := some false } 97 rfl).1 rfl rfl,
   (C10_confirming_evidence_boost_asymmetry
      { claim := "c", initial_verdict := some "LEGITIMATE",
        initial_confidence := some 90, evidence_supports_claim := some true } 90 rfl).2 rfl rfl⟩

/-! ## Output formatters (m4_tools, m2_langgraph, m6_human_in_loop_simple)
and their idempotence under the engine merge -/

/-- Dict returned by `format_output_node` of m4_tools (lines 199-219):
the three final_* keys. -/
structure M4FormatUpdate where
  final_verdict : Option String
  final_confidence : Option Int
  final_reasoning : Option String
deriving DecidableEq, Repr

/-- Embedding of `format_output_node` of m4_tools (lines 199-219).  `none`
models the `TypeError` raised by `reasoning += ...` when the selected
reasoning is `None` while `sources_used` is truthy. -/
def format_output_node_m4 (s : M4State) : Option M4FormatUpdate :=
  let verdict :=
    if s.used_search then pyOrOptStr s.final_verdict s.initial_verdict else s.initial_verdict
  let confidence :=
    if s.used_search then pyOrOptInt s.final_confidence s.initial_confidence
    else s.initial_confidence
  let reasoning :=
    if s.used_search then pyOrOptStr s.final_reasoning s.initial_reasoning
    else s.initial_reasoning
  if s.sources_used.isEmpty then some ⟨verdict, confidence, reasoning⟩
  else
    match reasoning with
    | none => none
    | some r =>
      some ⟨verdict, confidence,
        some (r ++ "\n\nSources consulted: " ++ toString s.sources_used.length ++
          " web searches")⟩

/-- Engine merge of the m4 formatter update (last-write-wins on the three
final_* channels). -/
def applyM4FormatUpdate (s : M4State) (u : M4FormatUpdate) : M4State :=
  { s with final_verdict := u.final_verdict, final_confidence := u.final_confidence,
           final_reasoning := u.final_reasoning }

/-- ResultRecord assembled by `format_output_node` of
m6_human_in_loop_simple (lines 87-104); the search_results key is present
only when the state field is truthy. -/
structure M6Result where
  verdict : String
  confidence : Int
  reasoning : String
  claim_type : Option String
  analyzing_agent : Option String
  used_search : Bool
  tools_used : List String
  human_reviewed : Bool
  human_review_reason : Option String
  search_results : Option (List String)
deriving DecidableEq, Repr

/-- Embedding of `HumanInLoopState` of m6_human_in_loop_simple (lines
28-33), flattened over its bases `ToolEnhancedState` (m5_tools lines
108-113, with search results modelled by their rendered text and the
message log out of scope) and `MultiAgentState` (m5_routing lines 16-36).
The `result` channel the formatter writes is part of the engine state per
spec section 4.4 merge semantics. -/
structure M6SimpleState where
  claim : String
  claim_type : Option String := none
  confidence_level : Option String := none
  retry_count : Int := 0
  max_retries : Int := 3
  verdict : Option String := none
  confidence : Option Int := none
  reasoning : Option String := none
  analyzing_agent : Option String := none
  error : Option String := none
  search_performed : Bool := false
  search_results : Option (List String) := none
  tools_used : List String := []
  needs_human_review : Bool := false
  human_review_reason : Option String := none
  human_feedback_received : Bool := false
  result : Option M6Result := none
deriving DecidableEq, Repr

/-- Embedding of `format_output_node` of m6_human_in_loop_simple (lines
87-104). -/
def format_output_node_m6 (s : M6SimpleState) : M6Result :=
  { verdict := pyOrOptStrD s.verdict "ERROR",
    confidence := pyOrOptIntD s.confidence 0,
    reasoning := pyOrOptStrD s.reasoning "No reasoning provided",
    claim_type := s.claim_type,
    analyzing_agent := s.analyzing_agent,
    used_search := s.search_performed,
    tools_used := s.tools_used,
    human_reviewed := s.needs_human_review,
    human_review_reason := s.human_review_reason,
    search_results := if pyTruthyOptList s.search_results then s.search_results else none }

/-- The m2 formatter followed by the engine merge of its update. -/
def formatOnceM2 (s : M2State) : M2State := applyFormatM2 s (format_output_node_m2 s)

/-- The m6 formatter followed by the engine merge of its update (it always
returns a dict with the single result key). -/
def formatOnceM6 (s : M6SimpleState) : M6SimpleState :=
  { s with result := some (format_output_node_m6 s) }

theorem pyOrOptStr_absorb (a b : Option String) :
    pyOrOptStr (pyOrOptStr a b) b = pyOrOptStr a b := by
  by_cases ha : pyTruthyOptStr a = true <;> simp [pyOrOptStr, ha]

theorem pyOrOptInt_absorb (a b : Option Int) :
    pyOrOptInt (pyOrOptInt a b) b = pyOrOptInt a b := by
  by_cases ha : pyTruthyOptInt a = true <;> simp [pyOrOptInt, ha]

/-- A state on the m4 search branch with one consulted source: the first
formatter application appends the source-attribution line, the second
application appends it again. -/
def c7BadState : M4State :=
  { claim := "The A380 fleet was fully retired in 2021",
    initial_verdict := some "LEGITIMATE", initial_confidence := some 80,
    initial_reasoning := some "Seems plausible.",
    used_search := true, sources_used := ["fact check A380 retirement"] }

def c7FirstUpdate : M4FormatUpdate :=
  { final_verdict := some "LEGITIMATE", final_confidence := some 80,
    final_reasoning := some "Seems plausible.\n\nSources consulted: 1 web searches" }

/-- C7 counterexample: the m4_tools output formatter is not idempotent.
On `c7BadState` the first application returns `c7FirstUpdate`; applying
the formatter again to the merged state returns a different record whose
reasoning carries the source-attribution suffix twice. -/
theorem C7_counterexample_m4_formatter_not_idempotent :
    format_output_node_m4 c7BadState = some c7FirstUpdate ∧
    format_output_node_m4 (applyM4FormatUpdate c7BadState c7FirstUpdate) =
      some { final_verdict := some "LEGITIMATE", final_confidence := some 80,
             final_reasoning := some
               "Seems plausible.\n\nSources consulted: 1 web searches\n\nSources consulted: 1 web searches" } ∧
    format_output_node_m4 (applyM4FormatUpdate c7BadState c7FirstUpdate) ≠
      some c7FirstUpdate := by
  refine ⟨by decide, by decide, by decide⟩

/-- C7 amended: the m2_langgraph and m6_human_in_loop_simple output
formatters are idempotent on every state; the m4_tools formatter is
idempotent exactly on the states the counterexample excludes, namely
whenever the search branch did not run or no source was consulted (on the
remaining states the second application duplicates the source-attribution
line). -/
theorem C7_amended_formatters_idempotent :
    (∀ s : M2State, formatOnceM2 (formatOnceM2 s) = formatOnceM2 s) ∧
    (∀ s : M6SimpleState, formatOnceM6 (formatOnceM6 s) = formatOnceM6 s) ∧
    (∀ s : M4State, s.used_search = false ∨ s.sources_used = [] →
      ∀ u, format_output_node_m4 s = some u →
        format_output_node_m4 (applyM4FormatUpdate s u) = some u) := by
  refine ⟨?_, ?_, ?_⟩
  · intro s
    cases hr : s.result <;>
      simp [formatOnceM2, format_output_node_m2, applyFormatM2, hr]
  · intro s
    rfl
  · rintro s (hus | hsrc) u hu
    · have hsame : format_output_node_m4 (applyM4FormatUpdate s u) =
          format_output_node_m4 s := by
        simp [format_output_node_m4, applyM4FormatUpdate, hus]
      rw [hsame, hu]
    · by_cases hus : s.used_search = true
      · simp only [format_output_node_m4, applyM4FormatUpdate, hsrc, List.isEmpty_nil,
          if_true, hus, Option.some.injEq] at hu ⊢
        subst hu
        simp [pyOrOptStr_absorb, pyOrOptInt_absorb]
      · have hus' : s.used_search = false := by
          cases h : s.used_search
          · rfl
          · exact absurd h hus
        have hsame : format_output_node_m4 (applyM4FormatUpdate s u) =
            format_output_node_m4 s := by
          simp [format_output_node_m4, applyM4FormatUpdate, hus']
        rw [hsame, hu]

def c7M2Sample : M2State :=
  { claim := "x", verdict := some "BS", confidence := some 88, reasoning := some "r" }

def c7M6Sample : M6SimpleState :=
  { claim := "y", verdict := some "LEGITIMATE", confidence := some 91,
    reasoning := some "ok" }

def c7M4Sample : M4State :=
  { claim := "z", initial_verdict := some "BS", initial_confidence := some 55,
    initial_reasoning := some "why", used_search := true,
    final_verdict := some "BS", final_confidence := some 60,
    final_reasoning := some "revised" }

def c7M4SampleUpdate : M4FormatUpdate :=
  { final_verdict := some "BS", final_confidence := some 60,
    final_reasoning := some "revised" }

theorem C7_amended_formatters_idempotent_witness :
    formatOnceM2 (formatOnceM2 c7M2Sample) = formatOnceM2 c7M2Sample ∧
    formatOnceM6 (formatOnceM6 c7M6Sample) = formatOnceM6 c7M6Sample ∧
    format_output_node_m4 (applyM4FormatUpdate c7M4Sample c7M4SampleUpdate) =
      some c7M4SampleUpdate :=
  ⟨C7_amended_formatters_idempotent.1 c7M2Sample,
   C7_amended_formatters_idempotent.2.1 c7M6Sample,
   C7_amended_formatters_idempotent.2.2 c7M4Sample (Or.inr rfl) c7M4SampleUpdate (by decide)⟩

/-! ## Module m6_human_in_loop: uncertainty scoring and review triggers

Floats are modelled by exact rationals (see the header note).  The review
reason strings built by `uncertainty_detector_node` are display-only
f-strings; they are modelled by constructors carrying the interpolated
data, with emptiness of the list being what the control flow reads. -/

/-- Review reasons appended by `uncertainty_detector_node` (m6_human_in_loop
lines 150-167), one constructor per f-string. -/
inductive ReviewReason where
  | forced
  | veryLowConfidence (c : Int)
  | expertsDisagree
  | highUncertainty (u : ℚ)
  | noEvidenceRecentEvent
deriving DecidableEq, Repr

/-- An expert opinion dict; the uncertainty computation reads only its
verdict key (`op.get("verdict")`). -/
structure ExpertOpinion where
  verdict : Option String := none
deriving DecidableEq, Repr

/-- Embedding of `HumanInLoopState` of m6_human_in_loop (lines 94-108) over
its bases (search results modelled by their rendered text, the display-only
`human_review_request` and `human_feedback` records out of scope).  The
dynamically attached `_force_human_review` attribute (line 151 reads it
via `hasattr`, line 405 sets it) is modelled as the `force_human_review`
field, `false` when never attached. -/
structure HILState where
  claim : String
  claim_type : Option String := none
  verdict : Option String := none
  confidence : Option Int := none
  reasoning : Option String := none
  analyzing_agent : Option String := none
  search_performed : Bool := false
  search_results : Option (List String) := none
  tools_used : List String := []
  needs_human_review : Bool := false
  review_reasons : List ReviewReason := []
  expert_opinions : List (String × ExpertOpinion) := []
  expert_disagreement : Bool := false
  uncertainty_score : ℚ := 0
  conflicting_evidence : Bool := false
  force_human_review : Bool := false
deriving DecidableEq, Repr

/-- Embedding of `calculate_uncertainty` (m6_human_in_loop lines 111-139). -/
def calculate_uncertainty (s : HILState) : ℚ :=
  let u1 : ℚ :=
    if pyTruthyOptInt s.confidence then
      (if s.confidence.getD 0 < 50 then 4/10
       else if s.confidence.getD 0 < 70 then 2/10 else 0)
    else 0
  let u2 : ℚ :=
    if !s.expert_opinions.isEmpty then
      (if ((s.expert_opinions.map (fun p => p.2.verdict)).dedup).length > 1 then 3/10 else 0)
    else 0
  let u3 : ℚ :=
    if pyTruthyOptList s.search_results ∧ (s.search_results.getD []).length > 1 then
      (let results_text := String.intercalate " " (s.search_results.getD [])
       if pyContains (pyLower results_text) "confirm" ∧
           pyContains (pyLower results_text) "deny" then 2/10 else 0)
    else 0
  let u4 : ℚ :=
    if s.claim_type = some "current_event" ∧ s.search_performed = false then 1/10 else 0
  min (u1 + u2 + u3 + u4) 1

/-- Dict returned by `uncertainty_detector_node`; `review_reasons` is part
of the update only on the needs-review branch and the display-only
`human_review_request` is out of scope. -/
structure UncertaintyUpdate where
  uncertainty_score : ℚ
  needs_human_review : Bool
  review_reasons : List ReviewReason
deriving DecidableEq, Repr

/-- The no-evidence test of m6_human_in_loop line 166:
`not state.search_results or all(not r for r in state.search_results)`. -/
def noEvidenceForRecentEvent (s : HILState) : Bool :=
  match s.search_results with
  | none => true
  | some rs => rs.isEmpty || rs.all (fun r => r.isEmpty)

/-- Embedding of `uncertainty_detector_node` (m6_human_in_loop lines
142-192). -/
def uncertainty_detector_node (s : HILState) : UncertaintyUpdate :=
  let u := calculate_uncertainty s
  if s.force_human_review then
    { uncertainty_score := u, needs_human_review := true,
      review_reasons := [ReviewReason.forced] }
  else
    let reasons : List ReviewReason :=
      (if pyTruthyOptInt s.confidence ∧ s.confidence.getD 0 < 50 then
        [ReviewReason.veryLowConfidence (s.confidence.getD 0)] else []) ++
      (if s.expert_disagreement then [ReviewReason.expertsDisagree] else []) ++
      (if u > 6/10 then [ReviewReason.highUncertainty u] else []) ++
      (if s.claim_type = some "current_event" ∧ s.search_performed = true ∧
          noEvidenceForRecentEvent s = true then [ReviewReason.noEvidenceRecentEvent]
       else [])
    { uncertainty_score := u,
      needs_human_review := !reasons.isEmpty || decide (u > 6/10),
      review_reasons := reasons }

/-- C6: with confidence 30 and no other uncertainty trigger the score is at
least 0.4 and review is required; with confidence 95, a single expert
opinion and no search needed the score is below 0.2 and no review is
required. -/
theorem C6_uncertainty_scoring_thresholds (s : HILState) :
    (s.confidence = some 30 → s.force_human_review = false →
      s.expert_opinions = [] → s.expert_disagreement = false →
      s.search_results = none →
      (s.claim_type = some "current_event" → s.search_performed = true) →
      calculate_uncertainty s ≥ 4/10 ∧
        (uncertainty_detector_node s).needs_human_review = true) ∧
    (∀ op : String × ExpertOpinion, s.confidence = some 95 →
      s.force_human_review = false → s.expert_opinions = [op] →
      s.expert_disagreement = false → s.search_results = none →
      s.search_performed = false →
      calculate_uncertainty s < 2/10 ∧
        (uncertainty_detector_node s).needs_human_review = false) := by
  constructor
  · intro hc hf hops hdis hsr hct
    have hu : calculate_uncertainty s = 4/10 := by
      by_cases h : s.claim_type = some "current_event"
      · have hsp := hct h
        norm_num [calculate_uncertainty, hc, hops, hsr, h, hsp, pyTruthyOptInt,
          pyTruthyOptList]
      · norm_num [calculate_uncertainty, hc, hops, hsr, h, pyTruthyOptInt,
          pyTruthyOptList]
    refine ⟨le_of_eq hu.symm, ?_⟩
    norm_num [uncertainty_detector_node, hu, hc, hf, pyTruthyOptInt]
  · intro op hc hf hops hdis hsr hsp
    have hu : calculate_uncertainty s =
        (if s.claim_type = some "current_event" then 1/10 else 0 : ℚ) := by
      by_cases h : s.claim_type = some "current_event" <;>
        norm_num [calculate_uncertainty, hc, hops, hsr, h, hsp, pyTruthyOptInt,
          pyTruthyOptList]
    have hult : calculate_uncertainty s < 2/10 := by
      rw [hu]; by_cases h : s.claim_type = some "current_event" <;> simp [h] <;> norm_num
    refine ⟨hult, ?_⟩
    have hnot : ¬(calculate_uncertainty s > 6/10) := by
      intro hgt; exact absurd (lt_trans hgt hult) (by norm_num)
    simp [uncertainty_detector_node, hf, hc, hdis, hsp, pyTruthyOptInt, hnot]

def c6LowState : HILState := { claim := "low", confidence := some 30 }

def c6HighState : HILState :=
  { claim := "high", confidence := some 95,
    expert_opinions := [("Technical Expert", { verdict := some "LEGITIMATE" })] }

theorem C6_uncertainty_scoring_thresholds_witness :
    (calculate_uncertainty c6LowState ≥ 4/10 ∧
      (uncertainty_detector_node c6LowState).needs_human_review = true) ∧
    (calculate_uncertainty c6HighState < 2/10 ∧
      (uncertainty_detector_node c6HighState).needs_human_review = false) :=
  ⟨(C6_uncertainty_scoring_thresholds c6LowState).1 rfl rfl rfl rfl rfl
      (fun h => by simp [c6LowState] at h),
   (C6_uncertainty_scoring_thresholds c6HighState).2
      ("Technical Expert", { verdict := some "LEGITIMATE" }) rfl rfl rfl rfl rfl rfl⟩

/-! ## Review checks of m6_human_in_loop_simple and m5_human_in_loop_v2 -/

/-- Dict returned by the review-check nodes; the reason key is absent (here
`none`) on the no-review branch. -/
structure ReviewCheckUpdate where
  needs_human_review : Bool
  human_review_reason : Option String := none
deriving DecidableEq, Repr

/-- Truthiness-guarded low-confidence test
`state.confidence and state.confidence < bound` shared by the review
checks. -/
def confTruthyBelow (o : Option Int) (bound : Int) : Bool :=
  pyTruthyOptInt o && decide (o.getD 0 < bound)

/-- Embedding of `check_needs_review` of m6_human_in_loop_simple (lines
35-55). -/
def check_needs_review (s : M6SimpleState) : ReviewCheckUpdate :=
  if confTruthyBelow s.confidence 50 then
    { needs_human_review := true,
      human_review_reason :=
        some ("Low confidence: " ++ toString (s.confidence.getD 0) ++ "%") }
  else if s.verdict = some "UNCERTAIN" then
    { needs_human_review := true,
      human_review_reason := some "AI returned uncertain verdict" }
  else if s.claim_type = some "current_event" && confTruthyBelow s.confidence 70 then
    { needs_human_review := true,
      human_review_reason :=
        some ("Current event with moderate confidence: " ++
          toString (s.confidence.getD 0) ++ "%") }
  else
    { needs_human_review := false }

/-- Fields of the m5_human_in_loop_v2 `HumanInLoopState` read by its review
check (the full class extends the tool-enhanced state; the fields its node
never reads are omitted here). -/
structure V2State where
  claim : String
  claim_type : Option String := none
  verdict : Option String := none
  confidence : Option Int := none
  skip_human_review : Bool := false
deriving DecidableEq, Repr

/-- Embedding of `check_needs_review_node` of m5_human_in_loop_v2 (lines
32-56): the same chain behind a skip flag. -/
def check_needs_review_node (s : V2State) : ReviewCheckUpdate :=
  if s.skip_human_review then { needs_human_review := false }
  else if confTruthyBelow s.confidence 50 then
    { needs_human_review := true,
      human_review_reason :=
        some ("Low confidence: " ++ toString (s.confidence.getD 0) ++ "%") }
  else if s.verdict = some "UNCERTAIN" then
    { needs_human_review := true,
      human_review_reason := some "AI returned uncertain verdict" }
  else if s.claim_type = some "current_event" && confTruthyBelow s.confidence 70 then
    { needs_human_review := true,
      human_review_reason :=
        some ("Current event with moderate confidence: " ++
          toString (s.confidence.getD 0) ++ "%") }
  else
    { needs_human_review := false }

/-- C9: confidence exactly 0 is falsy, so the truthiness-first guards never
fire: both review checks answer no review for any state with confidence 0
and a verdict other than UNCERTAIN, and `calculate_uncertainty` adds no
low-confidence contribution (the score equals the score of the same state
with no confidence at all). -/
theorem C9_zero_confidence_never_triggers_review :
    (∀ s : M6SimpleState, s.confidence = some 0 → s.verdict ≠ some "UNCERTAIN" →
      (check_needs_review s).needs_human_review = false) ∧
    (∀ s : V2State, s.confidence = some 0 → s.verdict ≠ some "UNCERTAIN" →
      (check_needs_review_node s).needs_human_review = false) ∧
    (∀ s : HILState, s.confidence = some 0 →
      calculate_uncertainty s = calculate_uncertainty { s with confidence := none }) := by
  refine ⟨?_, ?_, ?_⟩
  · intro s hc hv
    simp [check_needs_review, confTruthyBelow, hc, hv, pyTruthyOptInt]
  · intro s hc hv
    by_cases hskip : s.skip_human_review = true <;>
      simp [check_needs_review_node, confTruthyBelow, hc, hv, hskip, pyTruthyOptInt]
  · intro s hc
    simp [calculate_uncertainty, hc, pyTruthyOptInt]

def c9SimpleState : M6SimpleState :=
  { claim := "zero", verdict := some "BS", confidence := some 0 }

def c9V2State : V2State :=
  { claim := "zero", verdict := some "LEGITIMATE", confidence := some 0 }

def c9HILState : HILState :=
  { claim := "zero", verdict := some "BS", confidence := some 0,
    expert_disagreement := true }

theorem C9_zero_confidence_never_triggers_review_witness :
    (check_needs_review c9SimpleState).needs_human_review = false ∧
    (check_needs_review_node c9V2State).needs_human_review = false ∧
    calculate_uncertainty c9HILState =
      calculate_uncertainty { c9HILState with confidence := none } :=
  ⟨C9_zero_confidence_never_triggers_review.1 c9SimpleState rfl (by decide),
   C9_zero_confidence_never_triggers_review.2.1 c9V2State rfl (by decide),
   C9_zero_confidence_never_triggers_review.2.2 c9HILState rfl⟩

/-! ## Module m6_human_in_loop_simple: interrupt/resume round trip

The compiled graph is `router -> expert -> check_needs_review ->
(human_review | format_output)` with `interrupt_before=["human_review"]`
and a `MemorySaver` checkpointer (lines 115-177).  The execution engine and
checkpointer are the external LangGraph runtime; they are modelled per
spec sections 4.4 and 6: the engine halts before an interrupt-flagged
node, serialises the state under the caller-supplied thread id into the
graph's checkpoint store, and returns without a result; `invoke(None)`
resumes from the checkpoint for that thread and raises when there is
none.  The decisive repository-level fact is kept exact: every call of
`create_human_in_loop_graph` constructs its own fresh `MemorySaver`
(line 176), so the two entry points below never share a store.

The LLM behind router and experts is the oracle; the net effect of the
tool-calling loop of `current_events_expert_with_tools_node` (one judge
call plus a bounded tool round trip, spec section 4.2) is likewise
oracle-supplied, while its final free-text reply goes through the embedded
`_parse_expert_response` exactly as in m5_tools lines 197-206. -/

/-- Structured reply of the technical expert (`ExpertUpdate` schema of
node_updates). -/
structure ExpertStructuredReply where
  verdict : String
  confidence : Int
  reasoning : String
deriving DecidableEq, Repr

/-- Net tool usage of the current-events expert, decided by the LLM. -/
structure ToolUsage where
  search_performed : Bool
  search_results : List String
  tools_used : List String
deriving DecidableEq, Repr

/-- The oracle of the human-in-loop pipeline: one entry per LLM
interaction.  `routerReply` is the structured router output, `none`
modelling an oracle failure (router then defaults to general/medium,
m5_routing lines 73-79); `technicalStructured`/`technicalText` are the
structured attempt and the free-text fallback of the technical expert
(m5_routing lines 107-117); the other experts reply in free text parsed by
`_parse_expert_response`. -/
structure PipelineOracle where
  routerReply : String → Option (String × String)
  technicalStructured : String → Option ExpertStructuredReply
  technicalText : String → String
  historicalText : String → String
  generalText : String → String
  currentEventsText : String → String
  currentEventsTools : String → ToolUsage

/-- Embedding of `router_node` (m5_routing lines 39-79) on the
human-in-loop state. -/
def router_node (o : PipelineOracle) (s : M6SimpleState) : M6SimpleState :=
  match o.routerReply s.claim with
  | some (ct, cl) => { s with claim_type := some ct, confidence_level := some cl }
  | none => { s with claim_type := some "general", confidence_level := some "medium" }

/-- Merge of an expert update dict into the state. -/
def applyExpertParsed (s : M6SimpleState) (u : ExpertParsedUpdate) : M6SimpleState :=
  { s with verdict := some u.verdict, confidence := some u.confidence,
           reasoning := some u.reasoning, analyzing_agent := some u.analyzing_agent }

/-- Embedding of `technical_expert_node` (m5_routing lines 82-117). -/
def technical_expert_node (o : PipelineOracle) (s : M6SimpleState) : M6SimpleState :=
  match o.technicalStructured s.claim with
  | some r =>
    { s with verdict := some r.verdict, confidence := some r.confidence,
             reasoning := some r.reasoning, analyzing_agent := some "Technical Expert" }
  | none => applyExpertParsed s (_parse_expert_response (o.technicalText s.claim) "Technical Expert")

/-- Embedding of `historical_expert_node` (m5_routing lines 120-147). -/
def historical_expert_node (o : PipelineOracle) (s : M6SimpleState) : M6SimpleState :=
  applyExpertParsed s (_parse_expert_response (o.historicalText s.claim) "Historical Expert")

/-- Embedding of `general_expert_node` (m5_routing lines 181-204). -/
def general_expert_node (o : PipelineOracle) (s : M6SimpleState) : M6SimpleState :=
  applyExpertParsed s (_parse_expert_response (o.generalText s.claim) "General Expert")

/-- Embedding of `current_events_expert_with_tools_node` (m5_tools lines
116-206): the final reply text is parsed and the tool-usage keys are
merged. -/
def current_events_expert_with_tools_node (o : PipelineOracle) (s : M6SimpleState) :
    M6SimpleState :=
  let tu := o.currentEventsTools s.claim
  { applyExpertParsed s
      (_parse_expert_response (o.currentEventsText s.claim)
        "Current Events Expert (with tools)") with
    search_performed := tu.search_performed,
    search_results := some tu.search_results,
    tools_used := tu.tools_used }

/-- Embedding of the local `route_to_expert` of `create_human_in_loop_graph`
(m6_human_in_loop_simple lines 138-141). -/
def route_to_expert (s : M6SimpleState) : String :=
  if !pyTruthyOptStr s.claim_type then "general_expert"
  else s.claim_type.getD "" ++ "_expert"

/-- The conditional-edge table after the router (lines 143-152); the state
type constrains `claim_type` to the four literals, so the four labels are
exhaustive. -/
def dispatchExpert (o : PipelineOracle) (label : String) (s : M6SimpleState) : M6SimpleState :=
  match label with
  | "technical_expert" => technical_expert_node o s
  | "historical_expert" => historical_expert_node o s
  | "current_event_expert" => current_events_expert_with_tools_node o s
  | _ => general_expert_node o s

/-- Merge of the review-check update: the reason channel is written only
when the dict carries the key. -/
def applyReviewCheck (s : M6SimpleState) (u : ReviewCheckUpdate) : M6SimpleState :=
  { s with needs_human_review := u.needs_human_review,
           human_review_reason :=
             match u.human_review_reason with
             | some r => some r
             | none => s.human_review_reason }

/-- Embedding of `route_after_review_check` (lines 107-112). -/
def route_after_review_check (s : M6SimpleState) : String :=
  if s.needs_human_review && !s.human_feedback_received then "human_review"
  else "format_output"

/-- Outcome of one engine pass over the compiled graph: a finished run, or
a halt before the interrupt-flagged `human_review` node. -/
inductive RunOutcome where
  | finished (s : M6SimpleState)
  | interrupted (s : M6SimpleState)
deriving DecidableEq, Repr

/-- One engine pass over `create_human_in_loop_graph` (lines 115-177):
router, expert chosen by the conditional edge, review check, then either
the interrupt before `human_review` or the formatter and END.
(`human_review_node`, lines 58-84, only prints and returns the empty
update.) -/
def runHumanInLoopGraph (o : PipelineOracle) (s0 : M6SimpleState) : RunOutcome :=
  let s1 := router_node o s0
  let s2 := dispatchExpert o (route_to_expert s1) s1
  let s3 := applyReviewCheck s2 (check_needs_review s2)
  if route_after_review_check s3 = "human_review" then .interrupted s3
  else .finished (formatOnceM6 s3)

/-- The `MemorySaver` contents: checkpoints keyed by thread id (spec
section 6 store contract). -/
abbrev CheckpointStore := List (String × M6SimpleState)

/-- Engine `invoke(initial_state, config)` against a given checkpointer:
run until END or interrupt, persist the reached state under the thread id,
and hand back the state values (whose result key is set only when the
formatter ran). -/
def invokeWithInput (o : PipelineOracle) (store : CheckpointStore) (threadId : String)
    (s0 : M6SimpleState) : Option M6Result × CheckpointStore :=
  match runHumanInLoopGraph o s0 with
  | .finished sf => (sf.result, (threadId, sf) :: store)
  | .interrupted si => (none, (threadId, si) :: store)

/-- Engine `invoke(None, config)`: load the checkpoint of the thread and
continue past the interrupt (the `human_review` node returns the empty
update, then the formatter runs); with no checkpoint for the thread the
engine raises. -/
def invokeResume (o : PipelineOracle) (store : CheckpointStore) (threadId : String) :
    Except String (Option M6Result × CheckpointStore) :=
  match store.lookup threadId with
  | none => .error ("No checkpoint found for thread " ++ threadId)
  | some st =>
    let s4 := formatOnceM6 st
    .ok (s4.result, (threadId, s4) :: store)

/-- Embedding of `check_claim_with_human_review` (m6_human_in_loop_simple
lines 180-207).  `create_human_in_loop_graph()` builds the graph together
with a fresh `MemorySaver` (line 176), so the run starts from an empty
store; the store is local to the call and is dropped when the function
returns.  The returned value is the result key when present, else the
`None` pending-interrupt marker. -/
def check_claim_with_human_review (o : PipelineOracle) (claim threadId : String) :
    Option M6Result :=
  let store : CheckpointStore := []
  (invokeWithInput o store threadId { claim := claim }).1

/-- The checkpoints held by the call-local store of
`check_claim_with_human_review` at the moment it returns. -/
def check_claim_with_human_review_checkpoints (o : PipelineOracle)
    (claim threadId : String) : CheckpointStore :=
  let store : CheckpointStore := []
  (invokeWithInput o store threadId { claim := claim }).2

/-- Embedding of `resume_after_human_input` (lines 210-253).  It calls
`create_human_in_loop_graph()` again, obtaining a second, fresh
`MemorySaver` (line 176), and then `app.invoke(None, config,
interrupt_before=[])`; the human-updates fallback `invoke` of lines
238-248 would start a run whose input lacks the mandatory claim field and
fail state validation, but it is unreachable because the first `invoke`
already raises on the empty store. -/
def resume_after_human_input (o : PipelineOracle) (threadId verdict : String)
    (confidence : Int) (reasoning : String) : Except String M6Result :=
  let store : CheckpointStore := []
  match invokeResume o store threadId with
  | .error e => .error e
  | .ok (some r, _) => .ok r
  | .ok (none, _) => .error "validation error: claim field required"

/-- An oracle whose general expert answers BS at confidence 30: a
low-confidence reply that triggers the human-review interrupt. -/
def c3Oracle : PipelineOracle :=
  { routerReply := fun _ => some ("general", "medium"),
    technicalStructured := fun _ => none,
    technicalText := fun _ => "",
    historicalText := fun _ => "",
    generalText := fun _ =>
      "VERDICT: BS\nCONFIDENCE: 30\nREASONING: No credible reports support this.",
    currentEventsText := fun _ => "",
    currentEventsTools := fun _ =>
      { search_performed := false, search_results := [], tools_used := [] } }

def c3Claim : String := "Scientists discovered anti-gravity technology last week"

/-- C3: the claim fails on the code.  With a review trigger present the
first entry point does return the pending-interrupt marker `None` after
persisting a checkpoint under the thread id, but the checkpoint lives in
the `MemorySaver` created by that call's `create_human_in_loop_graph()`;
`resume_after_human_input` builds a new graph with another fresh
`MemorySaver`, finds no checkpoint for any thread id, and raises instead
of returning a terminal record carrying the human verdict, confidence and
reasoning. -/
theorem C3_resume_cannot_see_the_checkpoint :
    check_claim_with_human_review c3Oracle c3Claim "demo_2" = none ∧
    ((check_claim_with_human_review_checkpoints c3Oracle c3Claim "demo_2").lookup
      "demo_2").isSome = true ∧
    (∀ (o : PipelineOracle) (threadId verdict : String) (confidence : Int)
      (reasoning : String),
      resume_after_human_input o threadId verdict confidence reasoning =
        Except.error ("No checkpoint found for thread " ++ threadId)) := by
  refine ⟨by decide, by decide, ?_⟩
  intro o threadId verdict confidence reasoning
  rfl
